import Mathlib

/-!
# PulseAudio capture source (plugins/linux-pulseaudio/pulse-input.c)

A shallow embedding of the capture session of the PulseAudio input plugin:
the two format mappers, the latency resolver, the read callback and the
start / stop / update / create / destroy life cycle.

Calls that leave the file (the PulseAudio client library, the connection
wrapper of pulse-wrapper.h, the host sink, the allocator, the logger) are
recorded as a list of `Event`s in program order.  What those calls hand back
is read from a record of responses, so every function below is a pure,
executable function of the session state and of those responses.
-/

namespace PulseInput

/-! ## Types declared outside the file -/

/-- Sample encodings of the sound server (`pa_sample_format_t`), kept as the
integer value of the C enumeration so that values outside the named ones can
be expressed. -/
abbrev pa_sample_format_t := Int

def PA_SAMPLE_U8 : pa_sample_format_t := 0
def PA_SAMPLE_ALAW : pa_sample_format_t := 1
def PA_SAMPLE_ULAW : pa_sample_format_t := 2
def PA_SAMPLE_S16LE : pa_sample_format_t := 3
def PA_SAMPLE_S16BE : pa_sample_format_t := 4
def PA_SAMPLE_FLOAT32LE : pa_sample_format_t := 5
def PA_SAMPLE_FLOAT32BE : pa_sample_format_t := 6
def PA_SAMPLE_S32LE : pa_sample_format_t := 7
def PA_SAMPLE_S32BE : pa_sample_format_t := 8
def PA_SAMPLE_S24LE : pa_sample_format_t := 9
def PA_SAMPLE_S24BE : pa_sample_format_t := 10
def PA_SAMPLE_S24_32LE : pa_sample_format_t := 11
def PA_SAMPLE_S24_32BE : pa_sample_format_t := 12
def PA_SAMPLE_MAX : pa_sample_format_t := 13
def PA_SAMPLE_INVALID : pa_sample_format_t := -1

/-- Host sample formats (`enum audio_format`); only the members the file
names are listed. -/
inductive audio_format
  | AUDIO_FORMAT_UNKNOWN
  | AUDIO_FORMAT_U8BIT
  | AUDIO_FORMAT_16BIT
  | AUDIO_FORMAT_32BIT
  | AUDIO_FORMAT_FLOAT
  deriving DecidableEq, Repr

/-- Host speaker layouts (`enum speaker_layout`); only the members the file
names are listed. -/
inductive speaker_layout
  | SPEAKERS_UNKNOWN
  | SPEAKERS_MONO
  | SPEAKERS_STEREO
  | SPEAKERS_2POINT1
  | SPEAKERS_SURROUND
  | SPEAKERS_4POINT1
  | SPEAKERS_5POINT1
  | SPEAKERS_7POINT1
  deriving DecidableEq, Repr

open audio_format speaker_layout

/-- A stream handle (`pa_stream *`); the null pointer is `none` of
`Option pa_stream`. -/
abbrev pa_stream := Nat

/-- A host source handle (`obs_source_t`). -/
abbrev obs_source_t := Nat

/-- The triple `pa_sample_spec`: encoding, rate (32 bit), channels (8 bit). -/
structure pa_sample_spec where
  format : pa_sample_format_t
  rate : Nat
  channels : Nat
  deriving DecidableEq, Repr

/-- The part of `pa_source_info` that the source-info callback reads. -/
structure pa_source_info where
  sample_spec : pa_sample_spec
  deriving DecidableEq, Repr

/-- The part of `pa_server_info` that the server-info callback logs. -/
structure pa_server_info where
  server_name : String
  server_version : String
  deriving DecidableEq, Repr

/-- The buffer attributes handed to `pa_stream_connect_record`.  The file
assigns `fragsize` and `maxlength`; the three other members are left
unassigned, which is `none`. -/
structure pa_buffer_attr where
  maxlength : Nat
  tlength : Option Nat
  prebuf : Option Nat
  minreq : Option Nat
  fragsize : Nat
  deriving DecidableEq, Repr

/-- The stream flags named by the file. -/
inductive pa_stream_flags_t
  | PA_STREAM_INTERPOLATE_TIMING
  | PA_STREAM_AUTO_TIMING_UPDATE
  | PA_STREAM_ADJUST_LATENCY
  deriving DecidableEq, Repr

/-- Modelled from the spec: `struct obs_source_audio` is declared in a host
header outside this file.  The spec lists the members of an audio chunk as
encoding, sample rate, speaker layout, a view of the server buffer, frame
count and corrected timestamp; the frame count is kept as a natural number.
`data0` is the address stored in `data[0]`. -/
structure obs_source_audio where
  data0 : Nat
  frames : Nat
  speakers : speaker_layout
  format : audio_format
  samples_per_sec : Nat
  timestamp : Nat
  deriving DecidableEq, Repr

/-- Log levels used by the file. -/
inductive log_level
  | LOG_ERROR
  | LOG_INFO
  | LOG_DEBUG
  deriving DecidableEq, Repr

/-- The settings object: the file reads the one string `device_id`. -/
structure obs_data_t where
  device_id : String
  deriving DecidableEq, Repr

/-! ## Widths of the machine integers -/

/-- Width of `uint_fast32_t` and `uint_fast64_t` (64 bit on Linux/x86-64). -/
def UINT_FAST_BITS : Nat := 64

/-- Reduction of an integer to an unsigned 64 bit value. -/
def to_u64 (x : Int) : Nat := (x % (2 : Int) ^ 64).toNat

/-- Reduction of an integer to a signed 64 bit value (two's complement). -/
def to_i64 (x : Int) : Int :=
  let r := x % (2 : Int) ^ 64
  if r < (2 : Int) ^ 63 then r else r - (2 : Int) ^ 64

/-! ## The session -/

/-- The session `struct pulse_data`. -/
structure pulse_data where
  source : obs_source_t
  stream : Option pa_stream
  device : Option String
  speakers : speaker_layout
  format : pa_sample_format_t
  samples_per_sec : Nat
  bytes_per_frame : Nat
  channels : Nat
  packets : Nat
  frames : Nat
  latency : Float

/-- Every call that leaves the file, in the order the program makes it. -/
inductive Event
  | blog (level : log_level) (msg : String)
  | pulse_signal
  | pulse_lock
  | pulse_unlock
  | pulse_init
  | pulse_unref
  | pa_stream_peek (s : pa_stream)
  | pa_stream_drop (s : pa_stream)
  | pa_stream_get_latency (s : pa_stream)
  | os_gettime_ns
  | obs_source_output_audio (source : obs_source_t) (out : obs_source_audio)
  | pulse_get_server_info
  | pulse_get_source_info (device : Option String)
  | pulse_stream_new (source : obs_source_t) (spec : pa_sample_spec)
  | pa_stream_set_read_callback (s : pa_stream)
  | pa_stream_connect_record (s : pa_stream) (device : Option String)
      (attr : pa_buffer_attr) (flags : List pa_stream_flags_t)
  | pa_stream_disconnect (s : pa_stream)
  | pa_stream_unref (s : pa_stream)
  | bzalloc_data
  | bstrdup (s : String)
  | bfree_device
  | bfree_data
  deriving DecidableEq, Repr

/-! ## Format mapper -/

/-- The function `pulse_to_obs_audio_format`. -/
def pulse_to_obs_audio_format (format : pa_sample_format_t) : audio_format :=
  if format = PA_SAMPLE_U8 then AUDIO_FORMAT_U8BIT
  else if format = PA_SAMPLE_S16LE then AUDIO_FORMAT_16BIT
  else if format = PA_SAMPLE_S24_32LE then AUDIO_FORMAT_32BIT
  else if format = PA_SAMPLE_FLOAT32LE then AUDIO_FORMAT_FLOAT
  else AUDIO_FORMAT_UNKNOWN

/-- The function `pulse_channels_to_obs_speakers`. -/
def pulse_channels_to_obs_speakers (channels : Nat) : speaker_layout :=
  match channels with
  | 1 => SPEAKERS_MONO
  | 2 => SPEAKERS_STEREO
  | 3 => SPEAKERS_2POINT1
  | 4 => SPEAKERS_SURROUND
  | 5 => SPEAKERS_4POINT1
  | 6 => SPEAKERS_5POINT1
  | 8 => SPEAKERS_7POINT1
  | _ => SPEAKERS_UNKNOWN

/-! ## Latency resolver -/

/-- What `pa_stream_get_latency` hands back: its result code, the magnitude
written to `abs` (unsigned 64 bit) and the flag written to `sign`. -/
structure latency_reply where
  ret : Int
  abs : Nat
  sign : Int
  deriving DecidableEq, Repr

/-- The function `pulse_get_stream_latency`: the pair of the returned code
and the value stored through `latency`.  Both casts and the negation are
taken in 64 bit two's complement. -/
def pulse_get_stream_latency (q : latency_reply) : Int × Int :=
  let latency := if q.sign ≠ 0 then to_i64 (-(to_i64 (q.abs : Int))) else to_i64 (q.abs : Int)
  (q.ret, latency)

/-! ## Frame delivery callback -/

/-- What the outside world hands to one run of the read callback: the
pointer and the length written by `pa_stream_peek` (a null pointer is
`none`), the reply of the latency query and the clock `os_gettime_ns`. -/
structure read_world where
  peek_frames : Option Nat
  peek_bytes : Nat
  latency : latency_reply
  now : Nat
  deriving DecidableEq, Repr

/-- The callback `pulse_stream_read`.  The result is `none` when the callback
does not return: the only such point is the integer division by a zero
`bytes_per_frame`. -/
def pulse_stream_read (w : read_world) (data : pulse_data) :
    Option (pulse_data × List Event) :=
  match data.stream with
  | none => some (data, [Event.pulse_signal])
  | some st =>
    if w.peek_bytes = 0 then
      some (data, [Event.pa_stream_peek st, Event.pulse_signal])
    else
      match w.peek_frames with
      | none =>
        some (data, [Event.pa_stream_peek st,
          Event.blog log_level.LOG_ERROR "Got audio hole of %u bytes",
          Event.pa_stream_drop st, Event.pulse_signal])
      | some frames =>
        let r := pulse_get_stream_latency w.latency
        if r.1 < 0 then
          some (data, [Event.pa_stream_peek st, Event.pa_stream_get_latency st,
            Event.blog log_level.LOG_ERROR "Failed to get timing info !",
            Event.pa_stream_drop st, Event.pulse_signal])
        else if data.bytes_per_frame = 0 then
          none
        else
          let out : obs_source_audio :=
            { speakers := data.speakers
              samples_per_sec := data.samples_per_sec
              format := pulse_to_obs_audio_format data.format
              data0 := frames
              frames := w.peek_bytes / data.bytes_per_frame
              timestamp := to_u64 ((w.now : Int) - ((to_u64 r.2 * 1000 : Nat) : Int)) }
          some
            ({ data with
                packets := (data.packets + 1) % 2 ^ UINT_FAST_BITS
                frames := (data.frames + out.frames) % 2 ^ UINT_FAST_BITS
                latency := data.latency + Float.ofInt r.2 },
             [Event.pa_stream_peek st, Event.pa_stream_get_latency st,
              Event.os_gettime_ns, Event.obs_source_output_audio data.source out,
              Event.pa_stream_drop st, Event.pulse_signal])

/-- The audio chunks handed to the host sink in a trace, in order. -/
def emitted : List Event → List obs_source_audio
  | [] => []
  | Event.obs_source_output_audio _ out :: es => out :: emitted es
  | _ :: es => emitted es

/-- The buffer attributes of the connection requests in a trace, in order. -/
def connect_attrs : List Event → List pa_buffer_attr
  | [] => []
  | Event.pa_stream_connect_record _ _ attr _ :: es => attr :: connect_attrs es
  | _ :: es => connect_attrs es

/-- Number of times the waiters are signalled in a trace. -/
def signals (tr : List Event) : Nat := tr.count Event.pulse_signal

/-! ## Stream session -/

/-- The callback `pulse_server_info`. -/
def pulse_server_info (_i : pa_server_info) : List Event :=
  [Event.blog log_level.LOG_INFO "Server name: '%s %s'", Event.pulse_signal]

/-- The callback `pulse_source_info`. -/
def pulse_source_info (i : pa_source_info) (eol : Int) (data : pulse_data) :
    pulse_data × List Event :=
  if eol ≠ 0 then (data, [Event.pulse_signal])
  else
    ({ data with
        format := i.sample_spec.format
        samples_per_sec := i.sample_spec.rate
        channels := i.sample_spec.channels },
     [Event.blog log_level.LOG_INFO "Audio format: %s, %lu Hz, %hhu channels",
      Event.pulse_signal])

/-- What the outside world hands to one run of `pulse_start_recording`: the
result code of each wrapper query with the callback invocations it makes, the
two library functions on sample specs, the handle from `pulse_stream_new`
(null is `none`) and the result code of `pa_stream_connect_record`. -/
structure start_world where
  server_info_ret : Int
  server_info_cbs : List pa_server_info
  source_info_ret : Int
  source_info_cbs : List (pa_source_info × Int)
  pa_sample_spec_valid : pa_sample_spec → Bool
  pa_frame_size : pa_sample_spec → Nat
  stream_new : Option pa_stream
  connect_ret : Int

/-- The server-info callback run once per invocation made by the wrapper. -/
def run_server_info : List pa_server_info → List Event
  | [] => []
  | i :: is => pulse_server_info i ++ run_server_info is

/-- The source-info callback run once per invocation made by the wrapper. -/
def run_source_info : List (pa_source_info × Int) → pulse_data → pulse_data × List Event
  | [], data => (data, [])
  | (i, eol) :: cbs, data =>
    let r := pulse_source_info i eol data
    let r2 := run_source_info cbs r.1
    (r2.1, r.2 ++ r2.2)

/-- The function `pulse_stop_recording`.  The mean latency is computed in
double precision for the log line only and the accumulator is then zeroed. -/
def pulse_stop_recording (data : pulse_data) : pulse_data × List Event :=
  let r : pulse_data × List Event :=
    match data.stream with
    | some st =>
      ({ data with stream := none },
       [Event.pulse_lock, Event.pa_stream_disconnect st, Event.pa_stream_unref st,
        Event.pulse_unlock])
    | none => (data, [])
  let data1 : pulse_data :=
    { r.1 with latency := r.1.latency / (Float.ofNat r.1.packets * 1000.0) }
  ({ data1 with packets := 0, frames := 0, latency := 0.0 },
   r.2 ++ [Event.blog log_level.LOG_INFO "Stopped recording from '%s'",
           Event.blog log_level.LOG_INFO "Got %lu packets with %lu frames",
           Event.blog log_level.LOG_INFO "Average latency: %.2f msec"])

/-- Result of `pulse_start_recording`: the session, the returned code and the
trace. -/
structure start_result where
  data : pulse_data
  ret : Int
  trace : List Event

/-- The buffer attributes that `pulse_start_recording` assigns. -/
def start_attr : pa_buffer_attr :=
  { fragsize := 25000
    maxlength := (2 ^ 32 - 1 : Nat)
    tlength := none
    prebuf := none
    minreq := none }

/-- The stream flags that `pulse_start_recording` assigns. -/
def start_flags : List pa_stream_flags_t :=
  [pa_stream_flags_t.PA_STREAM_INTERPOLATE_TIMING,
   pa_stream_flags_t.PA_STREAM_AUTO_TIMING_UPDATE,
   pa_stream_flags_t.PA_STREAM_ADJUST_LATENCY]

/-- The function `pulse_start_recording`. -/
def pulse_start_recording (w : start_world) (data : pulse_data) : start_result :=
  let tr0 := Event.pulse_get_server_info :: run_server_info w.server_info_cbs
  if w.server_info_ret < 0 then
    { data := data, ret := -1
      trace := tr0 ++ [Event.blog log_level.LOG_ERROR "Unable to get server info !"] }
  else
    let r1 := run_source_info w.source_info_cbs data
    let data1 := r1.1
    let tr1 := tr0 ++ Event.pulse_get_source_info data.device :: r1.2
    if w.source_info_ret < 0 then
      { data := data1, ret := -1
        trace := tr1 ++ [Event.blog log_level.LOG_ERROR "Unable to get source info !"] }
    else
      let spec : pa_sample_spec :=
        { format := data1.format
          rate := data1.samples_per_sec % 2 ^ 32
          channels := data1.channels % 2 ^ 8 }
      if ¬ w.pa_sample_spec_valid spec then
        { data := data1, ret := -1
          trace := tr1 ++ [Event.blog log_level.LOG_ERROR "Sample spec is not valid"] }
      else
        let data2 : pulse_data :=
          { data1 with
              speakers := pulse_channels_to_obs_speakers spec.channels
              bytes_per_frame := w.pa_frame_size spec % 2 ^ UINT_FAST_BITS }
        let tr2 := tr1 ++ [Event.pulse_stream_new data2.source spec]
        match w.stream_new with
        | none =>
          { data := { data2 with stream := none }, ret := -1
            trace := tr2 ++ [Event.blog log_level.LOG_ERROR "Unable to create stream"] }
        | some st =>
          let data3 : pulse_data := { data2 with stream := some st }
          let tr3 := tr2 ++
            [Event.pulse_lock, Event.pa_stream_set_read_callback st, Event.pulse_unlock,
             Event.pulse_lock,
             Event.pa_stream_connect_record st data3.device start_attr start_flags,
             Event.pulse_unlock]
          if w.connect_ret < 0 then
            let r4 := pulse_stop_recording data3
            { data := r4.1, ret := -1
              trace := tr3 ++ r4.2 ++
                [Event.blog log_level.LOG_ERROR "Unable to connect to stream"] }
          else
            { data := data3, ret := 0
              trace := tr3 ++ [Event.blog log_level.LOG_INFO "Started recording from '%s'"] }

/-! ## Device life cycle -/

/-- The function `pulse_update`. -/
def pulse_update (w : start_world) (data : pulse_data) (settings : obs_data_t) :
    pulse_data × List Event :=
  let new_device := settings.device_id
  let restart : Bool :=
    match data.device with
    | none => true
    | some d => decide (d ≠ new_device)
  if restart then
    let tr0 : List Event :=
      (match data.device with
       | some _ => [Event.bfree_device]
       | none => []) ++ [Event.bstrdup new_device]
    let data1 : pulse_data := { data with device := some new_device }
    let r2 : pulse_data × List Event :=
      match data1.stream with
      | some _ => pulse_stop_recording data1
      | none => (data1, [])
    let r3 := pulse_start_recording w r2.1
    (r3.data, tr0 ++ r2.2 ++ r3.trace)
  else
    (data, [])

/-- The function `pulse_destroy`; a null argument is `none`.  The session is
freed, so only the trace remains. -/
def pulse_destroy (vptr : Option pulse_data) : List Event :=
  match vptr with
  | none => []
  | some data =>
    let r : pulse_data × List Event :=
      match data.stream with
      | some _ => pulse_stop_recording data
      | none => (data, [])
    r.2 ++ [Event.pulse_unref] ++
      (match r.1.device with
       | some _ => [Event.bfree_device]
       | none => []) ++ [Event.bfree_data]

/-- The zero-filled session that `bzalloc` hands to `pulse_create`. -/
def bzalloc_pulse_data : pulse_data :=
  { source := 0
    stream := none
    device := none
    speakers := SPEAKERS_UNKNOWN
    format := 0
    samples_per_sec := 0
    bytes_per_frame := 0
    channels := 0
    packets := 0
    frames := 0
    latency := 0.0 }

/-- The function `pulse_create`: the returned handle (null is `none`) and the
trace. -/
def pulse_create (w : start_world) (settings : obs_data_t) (source : obs_source_t) :
    Option pulse_data × List Event :=
  let data : pulse_data := { bzalloc_pulse_data with source := source }
  let r := pulse_update w data settings
  let tr := Event.bzalloc_data :: Event.pulse_init :: r.2
  match r.1.stream with
  | some _ => (some r.1, tr)
  | none => (none, tr ++ pulse_destroy (some r.1))

/-! ## Auxiliary notions for the statements -/

/-- The fields of the session that the source-info callback never writes. -/
def same_outside_format (a b : pulse_data) : Prop :=
  a.source = b.source ∧ a.stream = b.stream ∧ a.device = b.device ∧
  a.packets = b.packets ∧ a.frames = b.frames ∧ a.latency = b.latency

/-- The sample spec that `pulse_start_recording` validates: the session after
the source-info callbacks, narrowed to the widths of `pa_sample_spec`. -/
def negotiated_spec (w : start_world) (data : pulse_data) : pa_sample_spec :=
  { format := (run_source_info w.source_info_cbs data).1.format
    rate := (run_source_info w.source_info_cbs data).1.samples_per_sec % 2 ^ 32
    channels := (run_source_info w.source_info_cbs data).1.channels % 2 ^ 8 }

/-- Every step of the negotiation succeeds. -/
def start_ok (w : start_world) (data : pulse_data) : Prop :=
  0 ≤ w.server_info_ret ∧ 0 ≤ w.source_info_ret ∧
  w.pa_sample_spec_valid (negotiated_spec w data) = true ∧
  w.stream_new ≠ none ∧ 0 ≤ w.connect_ret

instance (w : start_world) (data : pulse_data) : Decidable (start_ok w data) := by
  unfold start_ok
  infer_instance

/-- The session as `pulse_start_recording` leaves it once the sample spec has
been validated: layout and frame size derived from the spec. -/
def negotiated_data (w : start_world) (data : pulse_data) : pulse_data :=
  { (run_source_info w.source_info_cbs data).1 with
      speakers := pulse_channels_to_obs_speakers (negotiated_spec w data).channels
      bytes_per_frame := w.pa_frame_size (negotiated_spec w data) % 2 ^ UINT_FAST_BITS }

/-! ## A concrete server, for evaluation -/

/-- Library model: bytes per sample of an encoding, as `pa_sample_size` of the
PulseAudio client library documents it (0 for a value that is no encoding). -/
def pa_sample_size_of_format (format : pa_sample_format_t) : Nat :=
  if format = PA_SAMPLE_U8 ∨ format = PA_SAMPLE_ALAW ∨ format = PA_SAMPLE_ULAW then 1
  else if format = PA_SAMPLE_S16LE ∨ format = PA_SAMPLE_S16BE then 2
  else if format = PA_SAMPLE_S24LE ∨ format = PA_SAMPLE_S24BE then 3
  else if format = PA_SAMPLE_FLOAT32LE ∨ format = PA_SAMPLE_FLOAT32BE
      ∨ format = PA_SAMPLE_S32LE ∨ format = PA_SAMPLE_S32BE
      ∨ format = PA_SAMPLE_S24_32LE ∨ format = PA_SAMPLE_S24_32BE then 4
  else 0

/-- Library model: `pa_frame_size`, bytes per sample times channels. -/
def pa_frame_size (spec : pa_sample_spec) : Nat :=
  pa_sample_size_of_format spec.format * spec.channels

/-- Library model: `pa_sample_spec_valid`, with the library limits of 192000 Hz
and 32 channels. -/
def pa_sample_spec_valid (spec : pa_sample_spec) : Bool :=
  decide (0 < spec.rate ∧ spec.rate ≤ 192000 ∧ 0 < spec.channels ∧ spec.channels ≤ 32
    ∧ 0 ≤ spec.format ∧ spec.format < PA_SAMPLE_MAX)

/-- A server whose selected source is 48000 Hz, 2 channels, signed 16 bit
little endian, and on which every step of the negotiation succeeds. -/
def stereo_s16_world : start_world :=
  { server_info_ret := 0
    server_info_cbs := [{ server_name := "pulseaudio", server_version := "5.0" }]
    source_info_ret := 0
    source_info_cbs :=
      [({ sample_spec := { format := PA_SAMPLE_S16LE, rate := 48000, channels := 2 } }, 0),
       ({ sample_spec := { format := 0, rate := 0, channels := 0 } }, 1)]
    pa_sample_spec_valid := pa_sample_spec_valid
    pa_frame_size := pa_frame_size
    stream_new := some 1
    connect_ret := 0 }

/-- A delivery of 4096 bytes at address 4660 with a latency of 1000 units. -/
def deliver_4096 : read_world :=
  { peek_frames := some 4660
    peek_bytes := 4096
    latency := { ret := 0, abs := 1000, sign := 0 }
    now := 5000000 }

/-- A streaming session: stereo, signed 16 bit, 48000 Hz, one open stream. -/
def streaming_session : pulse_data :=
  { source := 7
    stream := some 1
    device := some "X"
    speakers := SPEAKERS_STEREO
    format := PA_SAMPLE_S16LE
    samples_per_sec := 48000
    bytes_per_frame := 4
    channels := 2
    packets := 3
    frames := 3072
    latency := 3000.0 }

/-- A delivery that reports a hole: null pointer, 512 bytes. -/
def deliver_hole : read_world :=
  { peek_frames := none
    peek_bytes := 512
    latency := { ret := 0, abs := 1000, sign := 0 }
    now := 5000000 }

/-- The same server, refusing the connection of the stream. -/
def connect_fail_world : start_world :=
  { stereo_s16_world with connect_ret := -1 }

/-! ## Format mapper: theorems -/

/-- C9: `pulse_to_obs_audio_format` maps unsigned-8-bit to U8BIT,
signed-16-bit-little-endian to 16BIT, signed-24-in-32-bit-little-endian to
32BIT, float-32-bit-little-endian to FLOAT, and every other value of the
server format to UNKNOWN. -/
theorem pulse_to_obs_audio_format_table :
    pulse_to_obs_audio_format PA_SAMPLE_U8 = AUDIO_FORMAT_U8BIT ∧
    pulse_to_obs_audio_format PA_SAMPLE_S16LE = AUDIO_FORMAT_16BIT ∧
    pulse_to_obs_audio_format PA_SAMPLE_S24_32LE = AUDIO_FORMAT_32BIT ∧
    pulse_to_obs_audio_format PA_SAMPLE_FLOAT32LE = AUDIO_FORMAT_FLOAT ∧
    ∀ format : pa_sample_format_t,
      format ≠ PA_SAMPLE_U8 → format ≠ PA_SAMPLE_S16LE →
      format ≠ PA_SAMPLE_S24_32LE → format ≠ PA_SAMPLE_FLOAT32LE →
      pulse_to_obs_audio_format format = AUDIO_FORMAT_UNKNOWN := by
  refine ⟨by decide, by decide, by decide, by decide, ?_⟩
  intro format h1 h2 h3 h4
  simp [pulse_to_obs_audio_format, h1, h2, h3, h4]

/-- C9 at a concrete input: the big-endian 16 bit encoding is none of the four
known encodings and maps to UNKNOWN. -/
theorem pulse_to_obs_audio_format_table_witness :
    pulse_to_obs_audio_format PA_SAMPLE_S16BE = AUDIO_FORMAT_UNKNOWN :=
  pulse_to_obs_audio_format_table.2.2.2.2 PA_SAMPLE_S16BE
    (by decide) (by decide) (by decide) (by decide)

/-- C10: `pulse_channels_to_obs_speakers` maps 1, 2, 3, 4, 5, 6, 8 channels to
mono, stereo, 2.1, surround, 4.1, 5.1, 7.1, and every other channel count
(0, 7 and 10 among them) to UNKNOWN. -/
theorem pulse_channels_to_obs_speakers_table :
    pulse_channels_to_obs_speakers 1 = SPEAKERS_MONO ∧
    pulse_channels_to_obs_speakers 2 = SPEAKERS_STEREO ∧
    pulse_channels_to_obs_speakers 3 = SPEAKERS_2POINT1 ∧
    pulse_channels_to_obs_speakers 4 = SPEAKERS_SURROUND ∧
    pulse_channels_to_obs_speakers 5 = SPEAKERS_4POINT1 ∧
    pulse_channels_to_obs_speakers 6 = SPEAKERS_5POINT1 ∧
    pulse_channels_to_obs_speakers 8 = SPEAKERS_7POINT1 ∧
    pulse_channels_to_obs_speakers 0 = SPEAKERS_UNKNOWN ∧
    pulse_channels_to_obs_speakers 7 = SPEAKERS_UNKNOWN ∧
    pulse_channels_to_obs_speakers 10 = SPEAKERS_UNKNOWN ∧
    ∀ n : Nat, n ∉ [1, 2, 3, 4, 5, 6, 8] →
      pulse_channels_to_obs_speakers n = SPEAKERS_UNKNOWN := by
  refine ⟨rfl, rfl, rfl, rfl, rfl, rfl, rfl, rfl, rfl, rfl, ?_⟩
  intro n hn
  simp only [List.mem_cons, List.mem_singleton, List.not_mem_nil, or_false, not_or] at hn
  obtain ⟨h1, h2, h3, h4, h5, h6, h8⟩ := hn
  unfold pulse_channels_to_obs_speakers
  split <;> first | rfl | contradiction

/-- C10 at a concrete input: 9 channels is outside the table and maps to
UNKNOWN. -/
theorem pulse_channels_to_obs_speakers_table_witness :
    pulse_channels_to_obs_speakers 9 = SPEAKERS_UNKNOWN :=
  pulse_channels_to_obs_speakers_table.2.2.2.2.2.2.2.2.2.2 9 (by decide)

/-! ## Latency resolver: theorems -/

/-- C8: for every magnitude `m` below `2^63`, every sign flag and every result
code of the underlying query, `pulse_get_stream_latency` stores `-m` when the
flag is set and `m` when it is not, and returns the result code unchanged, so
that it reports an error exactly when the underlying query does; magnitude
1000 gives -1000 with the flag set and 1000 without. -/
theorem pulse_get_stream_latency_signed (ret : Int) (m : Nat) (sign : Int)
    (hm : m < 2 ^ 63) :
    (pulse_get_stream_latency { ret := ret, abs := m, sign := sign }).2
        = (if sign ≠ 0 then -(m : Int) else (m : Int)) ∧
    (pulse_get_stream_latency { ret := ret, abs := m, sign := sign }).1 = ret ∧
    ((pulse_get_stream_latency { ret := ret, abs := m, sign := sign }).1 < 0 ↔ ret < 0) ∧
    (pulse_get_stream_latency { ret := ret, abs := 1000, sign := 1 }).2 = -1000 ∧
    (pulse_get_stream_latency { ret := ret, abs := 1000, sign := 0 }).2 = 1000 := by
  have h63 : ((2 : Int) ^ 63) = 9223372036854775808 := by norm_num
  have h64 : ((2 : Int) ^ 64) = 18446744073709551616 := by norm_num
  have hm2 : (m : Int) < 9223372036854775808 := by
    have : (2 : Nat) ^ 63 = 9223372036854775808 := by norm_num
    omega
  refine ⟨?_, rfl, Iff.rfl, ?_, ?_⟩
  · simp only [pulse_get_stream_latency, to_i64, h63, h64]
    split_ifs <;> omega
  · simp only [pulse_get_stream_latency, to_i64]
    decide
  · simp only [pulse_get_stream_latency, to_i64]
    decide

/-- C8 at a concrete input: magnitude 1000 with the flag set and a failing
query (result code -1). -/
theorem pulse_get_stream_latency_signed_witness :
    (pulse_get_stream_latency { ret := -1, abs := 1000, sign := 1 }).2 = -1000 ∧
    ((pulse_get_stream_latency { ret := -1, abs := 1000, sign := 1 }).1 < 0 ↔
      (-1 : Int) < 0) :=
  ⟨(pulse_get_stream_latency_signed (-1) 1000 1 (by norm_num)).1,
   (pulse_get_stream_latency_signed (-1) 1000 1 (by norm_num)).2.2.1⟩

/-! ## Frame delivery callback: theorems -/

/-- C1: with a live stream and a positive `bytes_per_frame`, when the peeked
buffer has a non-null pointer and a length `L > 0` and the latency query
succeeds, `pulse_stream_read` returns and hands exactly one chunk to the host
sink, with `frames = L / bytes_per_frame`, the format mapped from the session
format and the layout and rate of the session.  A session created on device
X against a 48000 Hz, 2 channel, signed-16-le source has layout stereo and
4 bytes per frame, and a delivery of 4096 bytes then gives one chunk of 1024
frames, format 16BIT, layout stereo. -/
theorem pulse_stream_read_emits_one_chunk :
    (∀ (w : read_world) (data : pulse_data) (st ptr : Nat),
      data.stream = some st → 0 < data.bytes_per_frame →
      w.peek_frames = some ptr → 0 < w.peek_bytes → 0 ≤ w.latency.ret →
      ∃ data1 tr chunk,
        pulse_stream_read w data = some (data1, tr) ∧
        emitted tr = [chunk] ∧
        chunk.frames = w.peek_bytes / data.bytes_per_frame ∧
        chunk.format = pulse_to_obs_audio_format data.format ∧
        chunk.speakers = data.speakers ∧
        chunk.samples_per_sec = data.samples_per_sec) ∧
    (∃ data data1 tr chunk,
      (pulse_create stereo_s16_world { device_id := "X" } 7).1 = some data ∧
      data.samples_per_sec = 48000 ∧ data.channels = 2 ∧
      data.format = PA_SAMPLE_S16LE ∧
      data.speakers = SPEAKERS_STEREO ∧ data.bytes_per_frame = 4 ∧
      pulse_stream_read deliver_4096 data = some (data1, tr) ∧
      emitted tr = [chunk] ∧
      chunk.frames = 1024 ∧ chunk.format = AUDIO_FORMAT_16BIT ∧
      chunk.speakers = SPEAKERS_STEREO ∧ chunk.samples_per_sec = 48000) := by
  constructor
  · intro w data st ptr hs hb hp hL hl
    have hb0 : data.bytes_per_frame ≠ 0 := Nat.pos_iff_ne_zero.mp hb
    have hL0 : w.peek_bytes ≠ 0 := Nat.pos_iff_ne_zero.mp hL
    have hl0 : ¬ (pulse_get_stream_latency w.latency).1 < 0 := by
      simpa [pulse_get_stream_latency] using hl
    simp only [pulse_stream_read, hs, hp, hL0, hl0, hb0, if_false]
    exact ⟨_, _, _, rfl, rfl, rfl, rfl, rfl, rfl⟩
  · exact ⟨_, _, _, _, rfl, rfl, rfl, rfl, rfl, rfl, rfl, rfl, rfl, rfl, rfl, rfl⟩

/-- C1 at a concrete input: the streaming stereo session receives 4096 bytes
and emits one chunk of 1024 frames. -/
theorem pulse_stream_read_emits_one_chunk_witness :
    ∃ data1 tr chunk,
      pulse_stream_read deliver_4096 streaming_session = some (data1, tr) ∧
      emitted tr = [chunk] ∧
      chunk.frames = 4096 / 4 ∧
      chunk.format = pulse_to_obs_audio_format PA_SAMPLE_S16LE ∧
      chunk.speakers = SPEAKERS_STEREO ∧
      chunk.samples_per_sec = 48000 :=
  pulse_stream_read_emits_one_chunk.1 deliver_4096 streaming_session 1 4660
    rfl (by decide) rfl (by decide) (by decide)

/-- C2: whatever the session, `pulse_stream_read` returns, hands no chunk to
the host sink and leaves the session (packets, frames and cumulative latency
included) as it was, when the stream handle is null, when the peeked length is
zero, when the peeked pointer is null with a positive length, or when the
latency query returns a negative code. -/
theorem pulse_stream_read_skips (w : read_world) (data : pulse_data)
    (h : data.stream = none ∨ w.peek_bytes = 0 ∨
      (w.peek_frames = none ∧ 0 < w.peek_bytes) ∨ w.latency.ret < 0) :
    ∃ data1 tr,
      pulse_stream_read w data = some (data1, tr) ∧
      emitted tr = [] ∧
      data1.packets = data.packets ∧ data1.frames = data.frames ∧
      data1.latency = data.latency ∧ data1 = data := by
  unfold pulse_stream_read
  cases hs : data.stream with
  | none => exact ⟨_, _, rfl, rfl, rfl, rfl, rfl, rfl⟩
  | some st =>
    by_cases hb : w.peek_bytes = 0
    · simp only [hb, if_true]
      exact ⟨_, _, rfl, rfl, rfl, rfl, rfl, rfl⟩
    · cases hp : w.peek_frames with
      | none =>
        simp only [hb, if_false]
        exact ⟨_, _, rfl, rfl, rfl, rfl, rfl, rfl⟩
      | some ptr =>
        have hl : (pulse_get_stream_latency w.latency).1 < 0 := by
          rcases h with h | h | h | h
          · rw [hs] at h; cases h
          · exact absurd h hb
          · rw [hp] at h; cases h.1
          · simpa [pulse_get_stream_latency] using h
        simp only [hb, if_false, hl, if_true]
        exact ⟨_, _, rfl, rfl, rfl, rfl, rfl, rfl⟩

/-- C2 at a concrete input: a hole of 512 bytes delivered to the streaming
session. -/
theorem pulse_stream_read_skips_witness :
    ∃ data1 tr,
      pulse_stream_read deliver_hole streaming_session = some (data1, tr) ∧
      emitted tr = [] ∧
      data1.packets = streaming_session.packets ∧
      data1.frames = streaming_session.frames ∧
      data1.latency = streaming_session.latency ∧ data1 = streaming_session :=
  pulse_stream_read_skips deliver_hole streaming_session
    (Or.inr (Or.inr (Or.inl ⟨rfl, by decide⟩)))

/-- C3: on every path of `pulse_stream_read` (null stream handle, zero-length
buffer, hole, latency failure, emission) the callback returns, its trace ends
with the signal to the waiters, and no other signal is raised before it.  The
emission path divides by `bytes_per_frame`, which is taken to be non-zero
there. -/
theorem pulse_stream_read_signals_last (w : read_world) (data : pulse_data)
    (h : data.stream ≠ none → w.peek_bytes ≠ 0 → w.peek_frames ≠ none →
      0 ≤ w.latency.ret → data.bytes_per_frame ≠ 0) :
    ∃ data1 pre,
      pulse_stream_read w data = some (data1, pre ++ [Event.pulse_signal]) ∧
      signals pre = 0 ∧ signals (pre ++ [Event.pulse_signal]) = 1 := by
  unfold pulse_stream_read
  cases hs : data.stream with
  | none => exact ⟨_, [], rfl, rfl, rfl⟩
  | some st =>
    by_cases hb : w.peek_bytes = 0
    · simp only [hb, if_true]
      exact ⟨_, [Event.pa_stream_peek st], rfl, by simp [signals], by simp [signals]⟩
    · cases hp : w.peek_frames with
      | none =>
        simp only [hb, if_false]
        exact ⟨_, [Event.pa_stream_peek st,
          Event.blog log_level.LOG_ERROR "Got audio hole of %u bytes",
          Event.pa_stream_drop st], rfl, by simp [signals], by simp [signals]⟩
      | some ptr =>
        by_cases hl : (pulse_get_stream_latency w.latency).1 < 0
        · simp only [hb, if_false, hl, if_true]
          exact ⟨_, [Event.pa_stream_peek st, Event.pa_stream_get_latency st,
            Event.blog log_level.LOG_ERROR "Failed to get timing info !",
            Event.pa_stream_drop st], rfl, by simp [signals], by simp [signals]⟩
        · have hl2 : 0 ≤ w.latency.ret := by
            simpa [pulse_get_stream_latency] using hl
          have hf : data.bytes_per_frame ≠ 0 :=
            h (by simp [hs]) hb (by simp [hp]) hl2
          simp only [hb, if_false, hl, hf]
          exact ⟨_, [Event.pa_stream_peek st, Event.pa_stream_get_latency st,
            Event.os_gettime_ns, Event.obs_source_output_audio _ _,
            Event.pa_stream_drop st], rfl, by simp [signals], by simp [signals]⟩

/-- C3 at a concrete input: the emission path, 4096 bytes delivered to the
streaming session. -/
theorem pulse_stream_read_signals_last_witness :
    ∃ data1 pre,
      pulse_stream_read deliver_4096 streaming_session
        = some (data1, pre ++ [Event.pulse_signal]) ∧
      signals pre = 0 ∧ signals (pre ++ [Event.pulse_signal]) = 1 :=
  pulse_stream_read_signals_last deliver_4096 streaming_session
    (fun _ _ _ _ => by decide)

/-! ## Stream session: what each step leaves alone -/

theorem pulse_source_info_frame (i : pa_source_info) (eol : Int) (data : pulse_data) :
    same_outside_format (pulse_source_info i eol data).1 data := by
  unfold pulse_source_info same_outside_format
  split_ifs <;> exact ⟨rfl, rfl, rfl, rfl, rfl, rfl⟩

theorem run_source_info_frame (cbs : List (pa_source_info × Int)) (data : pulse_data) :
    same_outside_format (run_source_info cbs data).1 data := by
  induction cbs generalizing data with
  | nil => exact ⟨rfl, rfl, rfl, rfl, rfl, rfl⟩
  | cons cb cbs ih =>
    obtain ⟨i, eol⟩ := cb
    have h1 := pulse_source_info_frame i eol data
    have h2 := ih (pulse_source_info i eol data).1
    unfold same_outside_format at *
    simp only [run_source_info]
    exact ⟨h2.1.trans h1.1, h2.2.1.trans h1.2.1, h2.2.2.1.trans h1.2.2.1,
      h2.2.2.2.1.trans h1.2.2.2.1, h2.2.2.2.2.1.trans h1.2.2.2.2.1,
      h2.2.2.2.2.2.trans h1.2.2.2.2.2⟩

theorem pulse_stop_recording_state (data : pulse_data) :
    (pulse_stop_recording data).1
      = { data with stream := none, packets := 0, frames := 0, latency := 0.0 } := by
  obtain ⟨source, stream, device, speakers, format, rate, bpf, channels, packets, frames,
    latency⟩ := data
  cases stream <;> rfl

theorem pulse_stop_recording_trace (data : pulse_data) (st : pa_stream)
    (hs : data.stream = some st) :
    (pulse_stop_recording data).2
      = [Event.pulse_lock, Event.pa_stream_disconnect st, Event.pa_stream_unref st,
         Event.pulse_unlock,
         Event.blog log_level.LOG_INFO "Stopped recording from '%s'",
         Event.blog log_level.LOG_INFO "Got %lu packets with %lu frames",
         Event.blog log_level.LOG_INFO "Average latency: %.2f msec"] := by
  simp [pulse_stop_recording, hs]

/-- The six ways through `pulse_start_recording`, with the returned code and
the session each one leaves. -/
theorem pulse_start_recording_cases (w : start_world) (data : pulse_data) :
    (w.server_info_ret < 0 ∧
      (pulse_start_recording w data).ret = -1 ∧
      (pulse_start_recording w data).data = data) ∨
    (0 ≤ w.server_info_ret ∧ w.source_info_ret < 0 ∧
      (pulse_start_recording w data).ret = -1 ∧
      (pulse_start_recording w data).data = (run_source_info w.source_info_cbs data).1) ∨
    (0 ≤ w.server_info_ret ∧ 0 ≤ w.source_info_ret ∧
      w.pa_sample_spec_valid (negotiated_spec w data) = false ∧
      (pulse_start_recording w data).ret = -1 ∧
      (pulse_start_recording w data).data = (run_source_info w.source_info_cbs data).1) ∨
    (0 ≤ w.server_info_ret ∧ 0 ≤ w.source_info_ret ∧
      w.pa_sample_spec_valid (negotiated_spec w data) = true ∧ w.stream_new = none ∧
      (pulse_start_recording w data).ret = -1 ∧
      (pulse_start_recording w data).data = { negotiated_data w data with stream := none }) ∨
    (∃ st, 0 ≤ w.server_info_ret ∧ 0 ≤ w.source_info_ret ∧
      w.pa_sample_spec_valid (negotiated_spec w data) = true ∧ w.stream_new = some st ∧
      w.connect_ret < 0 ∧
      (pulse_start_recording w data).ret = -1 ∧
      (pulse_start_recording w data).data
        = (pulse_stop_recording { negotiated_data w data with stream := some st }).1) ∨
    (∃ st, 0 ≤ w.server_info_ret ∧ 0 ≤ w.source_info_ret ∧
      w.pa_sample_spec_valid (negotiated_spec w data) = true ∧ w.stream_new = some st ∧
      0 ≤ w.connect_ret ∧
      (pulse_start_recording w data).ret = 0 ∧
      (pulse_start_recording w data).data
        = { negotiated_data w data with stream := some st }) := by
  by_cases h1 : w.server_info_ret < 0
  · left
    exact ⟨h1, by simp [pulse_start_recording, h1], by simp [pulse_start_recording, h1]⟩
  right
  have h1p : 0 ≤ w.server_info_ret := not_lt.mp h1
  by_cases h2 : w.source_info_ret < 0
  · left
    exact ⟨h1p, h2, by simp [pulse_start_recording, h1, h2],
      by simp [pulse_start_recording, h1, h2]⟩
  right
  have h2p : 0 ≤ w.source_info_ret := not_lt.mp h2
  cases h3 : w.pa_sample_spec_valid (negotiated_spec w data) with
  | false =>
    left
    have h3b := h3
    simp only [negotiated_spec, Nat.reducePow] at h3b
    exact ⟨h1p, h2p, rfl, by simp [pulse_start_recording, h1, h2, h3b],
      by simp [pulse_start_recording, h1, h2, h3b]⟩
  | true =>
    right
    have h3b := h3
    simp only [negotiated_spec, Nat.reducePow] at h3b
    cases h4 : w.stream_new with
    | none =>
      left
      exact ⟨h1p, h2p, rfl, rfl, by simp [pulse_start_recording, h1, h2, h3b, h4],
        by simp [pulse_start_recording, h1, h2, h3b, h4, negotiated_data, negotiated_spec]⟩
    | some st =>
      right
      by_cases h5 : w.connect_ret < 0
      · left
        exact ⟨st, h1p, h2p, rfl, rfl, h5,
          by simp [pulse_start_recording, h1, h2, h3b, h4, h5],
          by simp [pulse_start_recording, h1, h2, h3b, h4, h5, negotiated_data,
            negotiated_spec]⟩
      · right
        exact ⟨st, h1p, h2p, rfl, rfl, not_lt.mp h5,
          by simp [pulse_start_recording, h1, h2, h3b, h4, h5],
          by simp [pulse_start_recording, h1, h2, h3b, h4, h5, negotiated_data,
            negotiated_spec]⟩

theorem pulse_start_recording_device (w : start_world) (data : pulse_data) :
    (pulse_start_recording w data).data.device = data.device := by
  have hf := (run_source_info_frame w.source_info_cbs data).2.2.1
  rcases pulse_start_recording_cases w data with
    ⟨-, -, hd⟩ | ⟨-, -, -, hd⟩ | ⟨-, -, -, -, hd⟩ | ⟨-, -, -, -, -, hd⟩ |
    ⟨st, -, -, -, -, -, -, hd⟩ | ⟨st, -, -, -, -, -, -, hd⟩
  · rw [hd]
  · rw [hd]; exact hf
  · rw [hd]; exact hf
  · rw [hd]; exact hf
  · rw [hd, pulse_stop_recording_state]; exact hf
  · rw [hd]; exact hf

theorem pulse_start_recording_stats (w : start_world) (data : pulse_data)
    (hp : data.packets = 0) (hfr : data.frames = 0) (hl : data.latency = 0.0) :
    (pulse_start_recording w data).data.packets = 0 ∧
    (pulse_start_recording w data).data.frames = 0 ∧
    (pulse_start_recording w data).data.latency = 0.0 := by
  have hf := run_source_info_frame w.source_info_cbs data
  have h3 : (run_source_info w.source_info_cbs data).1.packets = 0 ∧
      (run_source_info w.source_info_cbs data).1.frames = 0 ∧
      (run_source_info w.source_info_cbs data).1.latency = 0.0 :=
    ⟨hf.2.2.2.1.trans hp, hf.2.2.2.2.1.trans hfr, hf.2.2.2.2.2.trans hl⟩
  rcases pulse_start_recording_cases w data with
    ⟨-, -, hd⟩ | ⟨-, -, -, hd⟩ | ⟨-, -, -, -, hd⟩ | ⟨-, -, -, -, -, hd⟩ |
    ⟨st, -, -, -, -, -, -, hd⟩ | ⟨st, -, -, -, -, -, -, hd⟩
  · rw [hd]; exact ⟨hp, hfr, hl⟩
  · rw [hd]; exact h3
  · rw [hd]; exact h3
  · rw [hd]; exact h3
  · rw [hd, pulse_stop_recording_state]; exact ⟨rfl, rfl, rfl⟩
  · rw [hd]; exact h3

/-- Started from a session without a stream, `pulse_start_recording` returns
0 with the new stream open when every step succeeds, and -1 with no stream
otherwise. -/
theorem pulse_start_recording_outcome (w : start_world) (data : pulse_data)
    (hs : data.stream = none) :
    (start_ok w data ∧ (pulse_start_recording w data).ret = 0 ∧
      (pulse_start_recording w data).data.stream = w.stream_new ∧
      (pulse_start_recording w data).data.stream ≠ none) ∨
    (¬ start_ok w data ∧ (pulse_start_recording w data).ret = -1 ∧
      (pulse_start_recording w data).data.stream = none) := by
  have hf := (run_source_info_frame w.source_info_cbs data).2.1
  rcases pulse_start_recording_cases w data with
    ⟨h1, hr, hd⟩ | ⟨-, h2, hr, hd⟩ | ⟨-, -, h3, hr, hd⟩ | ⟨-, -, -, h4, hr, hd⟩ |
    ⟨st, -, -, -, -, h5, hr, hd⟩ | ⟨st, h1, h2, h3, h4, h5, hr, hd⟩
  · right
    refine ⟨fun h => absurd h.1 (not_le.mpr h1), hr, ?_⟩
    rw [hd]; exact hs
  · right
    refine ⟨fun h => absurd h.2.1 (not_le.mpr h2), hr, ?_⟩
    rw [hd]; exact hf.trans hs
  · right
    refine ⟨fun h => ?_, hr, ?_⟩
    · have := h.2.2.1
      rw [h3] at this
      cases this
    · rw [hd]; exact hf.trans hs
  · right
    refine ⟨fun h => h.2.2.2.1 h4, hr, ?_⟩
    rw [hd]
  · right
    refine ⟨fun h => absurd h.2.2.2.2 (not_le.mpr h5), hr, ?_⟩
    rw [hd, pulse_stop_recording_state]
  · left
    refine ⟨⟨h1, h2, h3, by simp [h4], h5⟩, hr, ?_, ?_⟩
    · rw [hd, h4]
    · rw [hd]; simp

/-- A successful start leaves the frame size of the validated spec in the
session. -/
theorem pulse_start_recording_bytes_per_frame (w : start_world) (data : pulse_data)
    (h : (pulse_start_recording w data).ret = 0) :
    (pulse_start_recording w data).data.bytes_per_frame
      = w.pa_frame_size (negotiated_spec w data) % 2 ^ UINT_FAST_BITS ∧
    w.pa_sample_spec_valid (negotiated_spec w data) = true := by
  rcases pulse_start_recording_cases w data with
    ⟨-, hr, -⟩ | ⟨-, -, hr, -⟩ | ⟨-, -, -, hr, -⟩ | ⟨-, -, -, -, hr, -⟩ |
    ⟨st, -, -, -, -, -, hr, -⟩ | ⟨st, -, -, h3, -, -, -, hd⟩
  · rw [hr] at h; cases h
  · rw [hr] at h; cases h
  · rw [hr] at h; cases h
  · rw [hr] at h; cases h
  · rw [hr] at h; cases h
  · rw [hd]
    exact ⟨rfl, h3⟩

/-- In the library model a valid sample spec has a positive frame size below
`2^64`, so a session opened against it never divides by zero. -/
theorem pa_frame_size_pos (spec : pa_sample_spec) (h : pa_sample_spec_valid spec = true) :
    0 < pa_frame_size spec % 2 ^ UINT_FAST_BITS := by
  simp only [pa_sample_spec_valid, decide_eq_true_eq, PA_SAMPLE_MAX] at h
  obtain ⟨-, -, hc, hc2, hf0, hf1⟩ := h
  obtain ⟨format, rate, channels⟩ := spec
  simp only at hc hc2 hf0 hf1
  have hs : 1 ≤ pa_sample_size_of_format format ∧ pa_sample_size_of_format format ≤ 4 := by
    interval_cases format <;> decide
  have hlt : pa_sample_size_of_format format * channels < 2 ^ UINT_FAST_BITS := by
    have : pa_sample_size_of_format format * channels ≤ 4 * 32 :=
      Nat.mul_le_mul hs.2 hc2
    have h2 : (4 * 32 : Nat) < 2 ^ UINT_FAST_BITS := by decide
    omega
  simp only [pa_frame_size]
  rw [Nat.mod_eq_of_lt hlt]
  exact Nat.mul_pos hs.1 hc

/-! ## Device life cycle: theorems -/

theorem pulse_update_noop (w : start_world) (data : pulse_data) (settings : obs_data_t)
    (h : data.device = some settings.device_id) :
    pulse_update w data settings = (data, []) := by
  simp [pulse_update, h]

theorem pulse_update_restart_eq (w : start_world) (data : pulse_data)
    (settings : obs_data_t) (h : data.device ≠ some settings.device_id) :
    pulse_update w data settings
      = ((pulse_start_recording w
            (match data.stream with
             | some _ => pulse_stop_recording { data with device := some settings.device_id }
             | none => ({ data with device := some settings.device_id }, [])).1).data,
         ((match data.device with
           | some _ => [Event.bfree_device]
           | none => []) ++ [Event.bstrdup settings.device_id]) ++
         (match data.stream with
          | some _ => pulse_stop_recording { data with device := some settings.device_id }
          | none => ({ data with device := some settings.device_id }, [])).2 ++
         (pulse_start_recording w
            (match data.stream with
             | some _ => pulse_stop_recording { data with device := some settings.device_id }
             | none => ({ data with device := some settings.device_id }, [])).1).trace) := by
  cases hd : data.device with
  | none => simp [pulse_update, hd]
  | some d =>
    have hne : d ≠ settings.device_id := by
      intro he
      exact h (by rw [hd, he])
    simp [pulse_update, hd, hne]

theorem pulse_update_device (w : start_world) (data : pulse_data) (settings : obs_data_t) :
    (pulse_update w data settings).1.device = some settings.device_id := by
  by_cases h : data.device = some settings.device_id
  · rw [pulse_update_noop w data settings h]
    exact h
  · rw [pulse_update_restart_eq w data settings h]
    simp only [pulse_start_recording_device]
    cases data.stream with
    | none => rfl
    | some st =>
      simp only
      rw [pulse_stop_recording_state]

/-- C5: when the session already stores a device string equal to the new
device id, `pulse_update` returns the session as it was (stream handle, device
string, negotiated format and statistics) and makes no call at all, hence no
stop and no start; so after any first update with an id, a second update with
the same id changes nothing, whatever the server would answer. -/
theorem pulse_update_same_device (w w2 : start_world) (data : pulse_data)
    (settings : obs_data_t) :
    (data.device = some settings.device_id →
      pulse_update w data settings = (data, [])) ∧
    pulse_update w2 (pulse_update w data settings).1 settings
      = ((pulse_update w data settings).1, []) :=
  ⟨pulse_update_noop w data settings,
   pulse_update_noop w2 _ settings (pulse_update_device w data settings)⟩

/-- C5 at a concrete input: the streaming session on device X is updated with
device id X. -/
theorem pulse_update_same_device_witness :
    pulse_update stereo_s16_world streaming_session { device_id := "X" }
      = (streaming_session, []) :=
  (pulse_update_same_device stereo_s16_world stereo_s16_world streaming_session
    { device_id := "X" }).1 rfl

/-- C4: when the session holds an open stream and the new device id differs
from the stored device string, `pulse_update` replaces the device string, then
runs `pulse_stop_recording` once and `pulse_start_recording` once on the
session the stop left.  The stop disconnects and releases the old stream under
the lock and leaves the handle null; no stream is created before that; and
packets, frames and cumulative latency are zero in the session returned. -/
theorem pulse_update_restart (w : start_world) (data : pulse_data)
    (settings : obs_data_t) (st : pa_stream)
    (hs : data.stream = some st) (hd : data.device ≠ some settings.device_id) :
    ∃ tr0 stopped started,
      stopped = pulse_stop_recording { data with device := some settings.device_id } ∧
      started = pulse_start_recording w stopped.1 ∧
      pulse_update w data settings = (started.data, tr0 ++ stopped.2 ++ started.trace) ∧
      (∀ e ∈ tr0, e = Event.bfree_device ∨ e = Event.bstrdup settings.device_id) ∧
      stopped.2
        = [Event.pulse_lock, Event.pa_stream_disconnect st, Event.pa_stream_unref st,
           Event.pulse_unlock,
           Event.blog log_level.LOG_INFO "Stopped recording from '%s'",
           Event.blog log_level.LOG_INFO "Got %lu packets with %lu frames",
           Event.blog log_level.LOG_INFO "Average latency: %.2f msec"] ∧
      stopped.1.stream = none ∧
      (∀ source spec, Event.pulse_stream_new source spec ∉ tr0 ++ stopped.2) ∧
      started.data.packets = 0 ∧ started.data.frames = 0 ∧
      started.data.latency = 0.0 := by
  have hstop : (pulse_stop_recording { data with device := some settings.device_id }).2
      = [Event.pulse_lock, Event.pa_stream_disconnect st, Event.pa_stream_unref st,
         Event.pulse_unlock,
         Event.blog log_level.LOG_INFO "Stopped recording from '%s'",
         Event.blog log_level.LOG_INFO "Got %lu packets with %lu frames",
         Event.blog log_level.LOG_INFO "Average latency: %.2f msec"] :=
    pulse_stop_recording_trace _ st hs
  have hstate := pulse_stop_recording_state { data with device := some settings.device_id }
  have hstats := pulse_start_recording_stats w
    (pulse_stop_recording { data with device := some settings.device_id }).1
    (by rw [hstate]) (by rw [hstate]) (by rw [hstate])
  refine ⟨(match data.device with
           | some _ => [Event.bfree_device]
           | none => []) ++ [Event.bstrdup settings.device_id], _, _, rfl, rfl, ?_, ?_,
    hstop, by rw [hstate], ?_, hstats.1, hstats.2.1, hstats.2.2⟩
  · rw [pulse_update_restart_eq w data settings hd, hs]
  · intro e he
    cases hdev : data.device with
    | none => rw [hdev] at he; simp at he; exact Or.inr he
    | some d => rw [hdev] at he; simp at he; exact he
  · intro source spec hmem
    rw [hstop] at hmem
    cases hdev : data.device with
    | none => rw [hdev] at hmem; simp at hmem
    | some d => rw [hdev] at hmem; simp at hmem

/-- C4 at a concrete input: the streaming session on device X is updated with
device id Y. -/
theorem pulse_update_restart_witness :
    ∃ started,
      started = pulse_start_recording stereo_s16_world
        (pulse_stop_recording { streaming_session with device := some "Y" }).1 ∧
      (pulse_update stereo_s16_world streaming_session { device_id := "Y" }).1
        = started.data ∧
      started.data.packets = 0 ∧ started.data.frames = 0 ∧
      started.data.latency = 0.0 := by
  obtain ⟨tr0, stopped, started, h1, h2, h3, -, -, -, -, h8, h9, h10⟩ :=
    pulse_update_restart stereo_s16_world streaming_session { device_id := "Y" } 1 rfl
      (by decide)
  subst h1
  exact ⟨started, h2, by rw [h3], h8, h9, h10⟩

/-- C6: whatever the external queries answer, `pulse_create` runs
`pulse_start_recording` once on the fresh session holding the device id, and
returns a non-null handle exactly when that start returned 0.  When the
server info or the source info is unavailable, the sample spec is invalid, the
stream cannot be created or the connection fails, the start returns -1 with
the stream handle null, and `pulse_create` destroys the session (connection
reference released, device string and session freed) and returns null. -/
theorem pulse_create_handle_iff_start (w : start_world) (settings : obs_data_t)
    (source : obs_source_t) :
    ∃ r : start_result,
      r = pulse_start_recording w
        { bzalloc_pulse_data with source := source, device := some settings.device_id } ∧
      ((pulse_create w settings source).1 ≠ none ↔ r.ret = 0) ∧
      (r.ret = 0 →
        (pulse_create w settings source).1 = some r.data ∧
        r.data.stream = w.stream_new ∧ r.data.stream ≠ none ∧
        (pulse_create w settings source).2
          = [Event.bzalloc_data, Event.pulse_init, Event.bstrdup settings.device_id]
            ++ r.trace) ∧
      ((w.server_info_ret < 0 ∨ w.source_info_ret < 0 ∨
        w.pa_sample_spec_valid (negotiated_spec w
          { bzalloc_pulse_data with source := source, device := some settings.device_id })
            = false ∨
        w.stream_new = none ∨ w.connect_ret < 0) →
        r.ret = -1 ∧ r.data.stream = none ∧
        (pulse_create w settings source).1 = none ∧
        (pulse_create w settings source).2
          = [Event.bzalloc_data, Event.pulse_init, Event.bstrdup settings.device_id]
            ++ r.trace
            ++ [Event.pulse_unref, Event.bfree_device, Event.bfree_data]) := by
  have hupd : pulse_update w { bzalloc_pulse_data with source := source } settings
      = ((pulse_start_recording w
            { bzalloc_pulse_data with
                source := source, device := some settings.device_id }).data,
         [Event.bstrdup settings.device_id] ++
         (pulse_start_recording w
            { bzalloc_pulse_data with
                source := source, device := some settings.device_id }).trace) := by
    rw [pulse_update_restart_eq w _ settings (by simp [bzalloc_pulse_data])]
    rfl
  have hdev := pulse_start_recording_device w
    { bzalloc_pulse_data with source := source, device := some settings.device_id }
  refine ⟨_, rfl, ?_⟩
  rcases pulse_start_recording_outcome w
      { bzalloc_pulse_data with source := source, device := some settings.device_id } rfl with
    ⟨hok, hret, hst, hne⟩ | ⟨hbad, hret, hst⟩
  · obtain ⟨s, hs⟩ := Option.ne_none_iff_exists'.mp hne
    have hc : pulse_create w settings source
        = (some (pulse_start_recording w
            { bzalloc_pulse_data with
                source := source, device := some settings.device_id }).data,
           [Event.bzalloc_data, Event.pulse_init, Event.bstrdup settings.device_id] ++
           (pulse_start_recording w
            { bzalloc_pulse_data with
                source := source, device := some settings.device_id }).trace) := by
      simp [pulse_create, hupd, hs]
    refine ⟨?_, ?_, ?_⟩
    · rw [hc]
      simp [hret]
    · intro _
      exact ⟨by rw [hc], hst, hne, by rw [hc]⟩
    · intro hfail
      exfalso
      obtain ⟨h1, h2, h3, h4, h5⟩ := hok
      rcases hfail with h | h | h | h | h
      · exact absurd h1 (not_le.mpr h)
      · exact absurd h2 (not_le.mpr h)
      · rw [h] at h3; cases h3
      · exact h4 h
      · exact absurd h5 (not_le.mpr h)
  · have hc : pulse_create w settings source
        = (none,
           [Event.bzalloc_data, Event.pulse_init, Event.bstrdup settings.device_id] ++
           (pulse_start_recording w
            { bzalloc_pulse_data with
                source := source, device := some settings.device_id }).trace ++
           [Event.pulse_unref, Event.bfree_device, Event.bfree_data]) := by
      simp [pulse_create, hupd, hst, pulse_destroy, hdev]
    refine ⟨?_, ?_, ?_⟩
    · rw [hc, hret]
      simp
    · intro h0
      rw [hret] at h0
      cases h0
    · intro _
      exact ⟨hret, hst, by rw [hc], by rw [hc]⟩

/-- C6 at a concrete input: the server refuses the connection, so the start
fails and `pulse_create` returns null after destroying the session. -/
theorem pulse_create_handle_iff_start_witness :
    (pulse_create connect_fail_world { device_id := "X" } 7).1 = none := by
  obtain ⟨r, -, -, -, h⟩ :=
    pulse_create_handle_iff_start connect_fail_world { device_id := "X" } 7
  exact (h (Or.inr (Or.inr (Or.inr (Or.inr (by decide)))))).2.2.1

/-! ## Buffering requested at connection -/

theorem connect_attrs_append (a b : List Event) :
    connect_attrs (a ++ b) = connect_attrs a ++ connect_attrs b := by
  induction a with
  | nil => rfl
  | cons e es ih =>
    cases e <;> simp [connect_attrs, ih]

theorem connect_attrs_run_server_info (cbs : List pa_server_info) :
    connect_attrs (run_server_info cbs) = [] := by
  induction cbs with
  | nil => rfl
  | cons i is ih =>
    simp [run_server_info, pulse_server_info, connect_attrs, ih]

theorem connect_attrs_run_source_info (cbs : List (pa_source_info × Int))
    (data : pulse_data) :
    connect_attrs (run_source_info cbs data).2 = [] := by
  induction cbs generalizing data with
  | nil => rfl
  | cons cb cbs ih =>
    obtain ⟨i, eol⟩ := cb
    simp only [run_source_info, connect_attrs_append, ih, List.append_nil]
    unfold pulse_source_info
    split_ifs <;> simp [connect_attrs]

theorem connect_attrs_pulse_stop_recording (data : pulse_data) :
    connect_attrs (pulse_stop_recording data).2 = [] := by
  unfold pulse_stop_recording
  cases data.stream <;> simp [connect_attrs]

/-- Whatever the spec, the only buffer attributes `pulse_start_recording`
hands to the connection request are the constant `start_attr`. -/
theorem connect_attrs_pulse_start_recording (w : start_world) (data : pulse_data) :
    ∀ attr ∈ connect_attrs (pulse_start_recording w data).trace, attr = start_attr := by
  intro attr hmem
  by_cases h1 : w.server_info_ret < 0
  · simp [pulse_start_recording, h1, connect_attrs, connect_attrs_append,
      connect_attrs_run_server_info] at hmem
  by_cases h2 : w.source_info_ret < 0
  · simp [pulse_start_recording, h1, h2, connect_attrs, connect_attrs_append,
      connect_attrs_run_server_info, connect_attrs_run_source_info] at hmem
  cases h3 : w.pa_sample_spec_valid (negotiated_spec w data) with
  | false =>
    have h3b := h3
    simp only [negotiated_spec, Nat.reducePow] at h3b
    simp [pulse_start_recording, h1, h2, h3b, connect_attrs, connect_attrs_append,
      connect_attrs_run_server_info, connect_attrs_run_source_info] at hmem
  | true =>
    have h3b := h3
    simp only [negotiated_spec, Nat.reducePow] at h3b
    cases h4 : w.stream_new with
    | none =>
      simp [pulse_start_recording, h1, h2, h3b, h4, connect_attrs, connect_attrs_append,
        connect_attrs_run_server_info, connect_attrs_run_source_info] at hmem
    | some st =>
      by_cases h5 : w.connect_ret < 0
      · simp [pulse_start_recording, h1, h2, h3b, h4, h5, connect_attrs,
          connect_attrs_append, connect_attrs_run_server_info,
          connect_attrs_run_source_info, connect_attrs_pulse_stop_recording] at hmem
        exact hmem
      · simp [pulse_start_recording, h1, h2, h3b, h4, h5, connect_attrs,
          connect_attrs_append, connect_attrs_run_server_info,
          connect_attrs_run_source_info] at hmem
        exact hmem

/-- C7: the code at the failing input.  Against the 48000 Hz, 2 channel,
signed-16-le source the session gets 4 bytes per frame, so 25 ms of audio is
48000 * 4 * 25 / 1000 = 4800 bytes; the one connection request made carries a
fragment size of 25000 and a maximum length of 2^32 - 1. -/
theorem pulse_start_recording_fragsize_stereo_s16 :
    (pulse_start_recording stereo_s16_world
      { bzalloc_pulse_data with device := some "X" }).ret = 0 ∧
    (pulse_start_recording stereo_s16_world
      { bzalloc_pulse_data with device := some "X" }).data.samples_per_sec = 48000 ∧
    (pulse_start_recording stereo_s16_world
      { bzalloc_pulse_data with device := some "X" }).data.bytes_per_frame = 4 ∧
    connect_attrs (pulse_start_recording stereo_s16_world
      { bzalloc_pulse_data with device := some "X" }).trace = [start_attr] ∧
    start_attr.fragsize = 25000 ∧
    start_attr.maxlength = 2 ^ 32 - 1 ∧
    48000 * 4 * 25 / 1000 = 4800 ∧
    start_attr.fragsize ≠ 48000 * 4 * 25 / 1000 :=
  ⟨rfl, rfl, rfl, rfl, rfl, rfl, rfl, by decide⟩

end PulseInput
